import Mathlib

/-!
Verification of the StatusPulse monitoring engine (`monitor_engine.py`,
`schp_client.py`) against its specification.

The Python code is shallowly embedded: timestamps are naturals (seconds since
epoch, ISO strings abstracted away), Supabase tables are Lean lists inside a
`DB` record, and all network / SMTP interaction is supplied by a deterministic
oracle `Env` so that the pure control flow of the engine can be proved about.
-/

namespace StatusPulse

/-! ## SCHP capability documents (`schp_client.py`) -/

/-- One entry of the `capabilities` mapping: `{ok: bool, reason?: string}`.
Post-validation (`_validate_schp_response`) every entry carries a boolean
`ok`, so the source's `cap.get("ok", False)` reads exactly this field. -/
structure Capability where
  ok : Bool
  reason : Option String
deriving Repr, DecidableEq

/-- An SCHP capability document: optional top-level `status` string and the
`capabilities` mapping (modelled as an association list, preserving the
document's iteration order). The guard on line 128 of `schp_client.py`
(`not data or "capabilities" not in data`) handles inputs that are not
capability documents; values of this type always carry the mapping. -/
structure SCHPDoc where
  status : Option String
  capabilities : List (String × Capability)
deriving Repr, DecidableEq

/-- `SCHPClient.get_overall_status` (schp_client.py lines 122-148):
explicit `status` wins; otherwise empty map gives `"unknown"`, all-ok gives
`"operational"`, any-ok gives `"degraded"`, else `"down"`. -/
def getOverallStatus (data : SCHPDoc) : String :=
  match data.status with
  | some s => s
  | none =>
    if data.capabilities.isEmpty then "unknown"
    else
      let all_ok := data.capabilities.all (fun c => c.2.ok)
      let any_ok := data.capabilities.any (fun c => c.2.ok)
      if all_ok then "operational"
      else if any_ok then "degraded"
      else "down"

/-- `SCHPClient.get_failed_capabilities` (schp_client.py lines 150-158):
names whose capability is not ok, in document order. -/
def getFailedCapabilities (data : SCHPDoc) : List String :=
  (data.capabilities.filter (fun c => !c.2.ok)).map (fun c => c.1)

/-- The result dict of `SCHPClient.fetch_capabilities` (schp_client.py lines
24-91) after wire transfer, JSON parsing and schema validation; the network,
parser and validator are abstracted into an oracle producing this record
(`success = true` comes with the parsed document in `data`). -/
structure SCHPFetchResult where
  url : String
  success : Bool
  data : Option SCHPDoc
  error : Option String
  response_time_ms : Option Nat
  fetched_at : Nat
deriving Repr, DecidableEq

/-! ## The plain HTTP checker (`MonitorEngine.check_url`) -/

/-- Outcome of one HTTP probe, as decided by the network: either a response
(with status code and measured latency) or one of the failure modes that
`check_url` catches (monitor_engine.py lines 70-77). -/
inductive ProbeOutcome where
  | response (status_code : Nat) (response_time_ms : Nat)
  | timeout
  | connectError (msg : String)
  | tooManyRedirects
  | otherError (msg : String)
deriving Repr, DecidableEq

/-- The result dict built by `MonitorEngine.check_url`. -/
structure CheckResult where
  url : String
  is_up : Bool
  status_code : Option Nat
  response_time_ms : Option Nat
  error_message : Option String
  checked_at : Nat
deriving Repr, DecidableEq

/-- `MonitorEngine.check_url` (monitor_engine.py lines 32-79).  The chosen
HTTP verb (GET/HEAD/POST) only selects which request is issued and is
absorbed into the `ProbeOutcome` oracle. -/
def checkUrl (url : String) (expected_status : Nat) (timeout_s : Nat)
    (outcome : ProbeOutcome) (now : Nat) : CheckResult :=
  let base : CheckResult :=
    { url := url, is_up := false, status_code := none, response_time_ms := none,
      error_message := none, checked_at := now }
  match outcome with
  | .response code ms =>
    let is_up := code == expected_status
    { base with
      status_code := some code
      response_time_ms := some ms
      is_up := is_up
      error_message :=
        if is_up then none else some s!"Expected {expected_status}, got {code}" }
  | .timeout => { base with error_message := some s!"Timeout after {timeout_s}s" }
  | .connectError m =>
      { base with error_message := some ("Connection failed: " ++ m.take 200) }
  | .tooManyRedirects => { base with error_message := some "Too many redirects" }
  | .otherError m => { base with error_message := some ("Error: " ++ m.take 200) }

/-! ## Claim C1 -/

/-- Claim C1: when an SCHP capability document omits `status`,
`get_overall_status` derives `operational` if every capability is ok,
`down` if zero are ok (and at least one exists), `degraded` otherwise, and
`unknown` on an empty capabilities map; an explicit `status` field always
wins over the derived value. -/
theorem schp_overall_status_aggregation (d : SCHPDoc) :
    (d.status = none → d.capabilities ≠ [] →
      ((∀ c ∈ d.capabilities, c.2.ok = true) → getOverallStatus d = "operational") ∧
      ((∀ c ∈ d.capabilities, c.2.ok = false) → getOverallStatus d = "down") ∧
      ((∃ c ∈ d.capabilities, c.2.ok = true) → (∃ c ∈ d.capabilities, c.2.ok = false) →
        getOverallStatus d = "degraded")) ∧
    (d.status = none → d.capabilities = [] → getOverallStatus d = "unknown") ∧
    (∀ s, d.status = some s → getOverallStatus d = s) := by
  refine ⟨?_, ?_, ?_⟩
  · intro hs hne
    refine ⟨?_, ?_, ?_⟩
    · intro hall
      have h1 : d.capabilities.all (fun c => c.2.ok) = true :=
        List.all_eq_true.mpr hall
      simp [getOverallStatus, hs, List.isEmpty_iff, hne, h1]
    · intro hnone
      have h1 : d.capabilities.all (fun c => c.2.ok) = false := by
        obtain ⟨c, hc⟩ := List.exists_mem_of_ne_nil _ hne
        refine Bool.eq_false_iff.mpr (fun h => ?_)
        have := List.all_eq_true.mp h c hc
        rw [hnone c hc] at this
        exact Bool.false_ne_true this
      have h2 : d.capabilities.any (fun c => c.2.ok) = false := by
        refine Bool.eq_false_iff.mpr (fun h => ?_)
        obtain ⟨c, hc, hok⟩ := List.any_eq_true.mp h
        rw [hnone c hc] at hok
        exact Bool.false_ne_true hok
      simp [getOverallStatus, hs, List.isEmpty_iff, hne, h1, h2]
    · intro hsome hbad
      have h1 : d.capabilities.all (fun c => c.2.ok) = false := by
        obtain ⟨c, hc, hok⟩ := hbad
        refine Bool.eq_false_iff.mpr (fun h => ?_)
        have := List.all_eq_true.mp h c hc
        rw [hok] at this
        exact Bool.false_ne_true this
      have h2 : d.capabilities.any (fun c => c.2.ok) = true := by
        obtain ⟨c, hc, hok⟩ := hsome
        exact List.any_eq_true.mpr ⟨c, hc, hok⟩
      simp [getOverallStatus, hs, List.isEmpty_iff, hne, h1, h2]
  · intro hs hnil
    simp [getOverallStatus, hs, hnil]
  · intro s hs
    simp [getOverallStatus, hs]

/-- Concrete witness for C1: a mixed document derives `"degraded"`. -/
theorem schp_overall_status_aggregation_witness :
    getOverallStatus
      { status := none,
        capabilities := [("db", ⟨true, none⟩), ("cache", ⟨false, none⟩)] }
      = "degraded" := by
  have h := schp_overall_status_aggregation
    { status := none,
      capabilities := [("db", ⟨true, none⟩), ("cache", ⟨false, none⟩)] }
  exact (h.1 rfl (by decide)).2.2
    ⟨("db", ⟨true, none⟩), by decide, rfl⟩
    ⟨("cache", ⟨false, none⟩), by decide, rfl⟩

/-! ## Claim C2 -/

/-- Claim C2: when a probe receives a response, `check_url` sets `is_up`
iff the status code equals `expected_status` exactly, and on any other code
records the error message `"Expected <E>, got <A>"`. -/
theorem check_url_response_exact_match (url : String)
    (expected_status timeout_s code ms now : Nat) :
    (checkUrl url expected_status timeout_s (.response code ms) now).is_up
        = (code == expected_status) ∧
    (checkUrl url expected_status timeout_s (.response code ms) now).error_message
        = (if code == expected_status then none
           else some s!"Expected {expected_status}, got {code}") ∧
    (checkUrl url expected_status timeout_s (.response code ms) now).status_code
        = some code := by
  cases h : (code == expected_status) <;> simp [checkUrl, h]

/-! ## Engine state: Supabase tables as lists -/

/-- Monitor status values stored in `monitors.current_status`. -/
inductive MStatus where
  | unknown
  | up
  | down
  | paused
deriving Repr, DecidableEq

/-- The spec's monitor-declared check kind. Modelled from the spec: no such
column is read or written anywhere under `src/`; the field is carried on the
row (Supabase rows are schemaless dicts) so that the spec's distinction can
be stated, and the engine is shown never to consult it. -/
inductive CheckKind where
  | urlCheck
  | capability
deriving Repr, DecidableEq

/-- A row of the `monitors` table, with the columns the engine reads. -/
structure Monitor where
  id : Nat
  name : String
  url : String
  expected_status : Nat
  timeout_seconds : Nat
  check_interval_seconds : Nat
  is_active : Bool
  current_status : MStatus
  last_checked_at : Option Nat
  last_status_change_at : Option Nat
  updated_at : Option Nat
  kind : CheckKind
deriving Repr, DecidableEq

/-- A row of the `checks` table. -/
structure CheckRec where
  monitor_id : Nat
  status_code : Option Nat
  response_time_ms : Option Nat
  is_up : Bool
  error_message : Option String
  checked_at : Nat
deriving Repr, DecidableEq

/-- A row of the `incidents` table. -/
structure Incident where
  id : Nat
  monitor_id : Nat
  started_at : Nat
  resolved_at : Option Nat
  duration_seconds : Option Nat
  is_resolved : Bool
deriving Repr, DecidableEq

/-- A row of the `alert_configs` table. -/
structure AlertConfig where
  id : Nat
  monitor_id : Nat
  alert_type : String
  destination : String
  is_active : Bool
deriving Repr, DecidableEq

/-- A row of the `alert_history` table. -/
structure AlertHistory where
  alert_config_id : Nat
  monitor_id : Nat
  alert_type : String
  message : String
  was_successful : Bool
deriving Repr, DecidableEq

/-- The store. `next_incident_id` models the id Supabase assigns to a fresh
`incidents` row. -/
structure DB where
  monitors : List Monitor
  checks : List CheckRec
  incidents : List Incident
  alert_configs : List AlertConfig
  alert_history : List AlertHistory
  next_incident_id : Nat
deriving Repr, DecidableEq

/-- Outcome of one webhook POST, as decided by the destination: a completed
HTTP response (any status code) or a transport error (the only case in which
`httpx.post` raises). -/
inductive WebhookOutcome where
  | response (status_code : Nat)
  | transportError (msg : String)
deriving Repr, DecidableEq

/-- The engine's environment: SMTP configuration read in `__init__`
(monitor_engine.py lines 27-30) and deterministic oracles for every external
interaction.  `emailSend` is the SMTP session of `_send_email_alert` (ok, or
raises with a message); `webhook` is the destination's behaviour; `probe`
gives the HTTP probe outcome per monitor id; `schpFetch` is the
already-parsed result of `SCHPClient.fetch_capabilities`; `persistFails`
says whether a store call raises while processing a given monitor id. -/
structure Env where
  smtp_email : String
  smtp_password : String
  emailSend : AlertConfig → Except String Unit
  webhook : AlertConfig → WebhookOutcome
  probe : Nat → ProbeOutcome
  schpFetch : String → SCHPFetchResult
  persistFails : Nat → Bool

/-! ## Alert dispatch (`_send_alerts`, `_send_email_alert`, `_send_webhook_alert`) -/

/-- `MonitorEngine._send_email_alert` (monitor_engine.py lines 254-303):
returns without raising when either SMTP credential is empty (Python
truthiness of the empty string), otherwise runs the SMTP session. -/
def sendEmailAlert (env : Env) (a : AlertConfig) : Except String Unit :=
  if env.smtp_email = "" || env.smtp_password = "" then .ok ()
  else env.emailSend a

/-- `MonitorEngine._send_webhook_alert` (monitor_engine.py lines 305-323):
POSTs the payload and ignores the response object entirely; only a transport
error raises.  A completed non-2xx response does not raise. -/
def sendWebhookAlert (env : Env) (a : AlertConfig) : Except String Unit :=
  match env.webhook a with
  | .response _ => .ok ()
  | .transportError m => .error m

/-- The channel dispatch inside the `try` of `_send_alerts` (lines 230-233).
A config whose `alert_type` is neither branch sends nothing and raises
nothing. -/
def sendChannel (env : Env) (a : AlertConfig) : Except String Unit :=
  if a.alert_type = "email" then sendEmailAlert env a
  else if a.alert_type = "webhook" then sendWebhookAlert env a
  else .ok ()

/-- One iteration of the `_send_alerts` loop (lines 228-252): attempt the
channel send, then insert exactly one `alert_history` row recording success
or the truncated failure message. -/
def alertAttempt (env : Env) (a : AlertConfig) (monitor_id : Nat)
    (mdata : Monitor) (status : String) : AlertHistory :=
  match sendChannel env a with
  | .ok _ =>
    { alert_config_id := a.id, monitor_id := monitor_id,
      alert_type := a.alert_type,
      message := s!"{mdata.name} is {status.toUpper}", was_successful := true }
  | .error e =>
    { alert_config_id := a.id, monitor_id := monitor_id,
      alert_type := a.alert_type,
      message := "Failed: " ++ e.take 200, was_successful := false }

/-- `MonitorEngine._send_alerts` (monitor_engine.py lines 219-252): loads the
monitor's active alert configs and appends one history row per config. -/
def sendAlerts (env : Env) (db : DB) (monitor_id : Nat) (mdata : Monitor)
    (status : String) : DB :=
  let configs := db.alert_configs.filter
    (fun a => a.monitor_id == monitor_id && a.is_active)
  { db with alert_history :=
      db.alert_history ++ configs.map (fun a => alertAttempt env a monitor_id mdata status) }

/-! ## State machine (`MonitorEngine.update_monitor_status`) -/

/-- The per-incident mutation of the resolution loop (lines 201-209): the
source reads the clock again for the duration; at the seconds granularity of
this model both reads are the single instant `now`, so
`duration_seconds = now - started_at` with `resolved_at = now`. -/
def resolveIncident (now : Nat) (inc : Incident) : Incident :=
  { inc with resolved_at := some now,
             duration_seconds := some (now - inc.started_at),
             is_resolved := true }

/-- Application of `update_data` (monitor_engine.py lines 172-180, 214-217)
to one monitor row: always patches `current_status`, `last_checked_at` and
`updated_at`; patches `last_status_change_at` only when the status changed
from a non-`unknown` value. -/
def monitorPatch (changed : Bool) (new_status : MStatus) (now : Nat)
    (x : Monitor) : Monitor :=
  { x with current_status := new_status,
           last_checked_at := some now,
           updated_at := some now,
           last_status_change_at :=
             if changed then some now else x.last_status_change_at }

/-- `MonitorEngine.update_monitor_status` (monitor_engine.py lines 154-217).
The source collects the open incidents with a select and updates each by id;
as ids identify rows this equals mapping the resolution over the table. The
final `monitors` update patches exactly the keys of `update_data`. -/
def updateMonitorStatus (env : Env) (db : DB) (monitor_id : Nat)
    (is_up : Bool) (now : Nat) : DB :=
  match db.monitors.find? (fun m => m.id == monitor_id) with
  | none => db
  | some mdata =>
    let old_status := mdata.current_status
    let new_status : MStatus := if is_up then .up else .down
    let changed : Bool := old_status != new_status && old_status != .unknown
    let db1 :=
      if changed then
        if new_status == .down then
          let dbi : DB :=
            { db with
              incidents := db.incidents ++
                [{ id := db.next_incident_id, monitor_id := monitor_id,
                   started_at := now, resolved_at := none,
                   duration_seconds := none, is_resolved := false }],
              next_incident_id := db.next_incident_id + 1 }
          sendAlerts env dbi monitor_id mdata "down"
        else if old_status == .down then
          let dbr : DB :=
            { db with
              incidents := db.incidents.map (fun inc =>
                if inc.monitor_id == monitor_id && !inc.is_resolved
                then resolveIncident now inc else inc) }
          sendAlerts env dbr monitor_id mdata "up"
        else db
      else db
    { db1 with monitors := db1.monitors.map (fun m =>
        if m.id == monitor_id then monitorPatch changed new_status now m
        else m) }

/-! ## Capability checking (`MonitorEngine.check_capabilities`) -/

/-- The result dict of `MonitorEngine.check_capabilities`
(monitor_engine.py lines 88-123). -/
structure CapCheckResult where
  url : String
  is_up : Bool
  status : String
  capabilities : List (String × Capability)
  failed_capabilities : List String
  response_time_ms : Option Nat
  error_message : Option String
  checked_at : Nat
deriving Repr, DecidableEq

/-- `MonitorEngine.check_capabilities` (monitor_engine.py lines 88-123): run
the SCHP fetch, then on `result["success"] and result["data"]` (a validated
document is a non-empty dict, hence truthy iff present) derive the overall
status and set `is_up` iff it equals `"operational"` exactly. -/
def checkCapabilities (env : Env) (url : String) : CapCheckResult :=
  let result := env.schpFetch url
  let base : CapCheckResult :=
    { url := result.url, is_up := false, status := "unknown",
      capabilities := [], failed_capabilities := [],
      response_time_ms := result.response_time_ms,
      error_message := result.error, checked_at := result.fetched_at }
  match result.success, result.data with
  | true, some data =>
    let st := getOverallStatus data
    { base with status := st,
                capabilities := data.capabilities,
                failed_capabilities := getFailedCapabilities data,
                is_up := st == "operational" }
  | _, _ => base

/-! ## Scheduler (`MonitorEngine.run_all_checks`) -/

/-- `MonitorEngine.save_check_result` (monitor_engine.py lines 143-152). -/
def saveCheckResult (db : DB) (monitor_id : Nat) (r : CheckResult) : DB :=
  { db with checks := db.checks ++
      [{ monitor_id := monitor_id, status_code := r.status_code,
         response_time_ms := r.response_time_ms, is_up := r.is_up,
         error_message := r.error_message, checked_at := r.checked_at }] }

/-- The due test of `run_all_checks` (monitor_engine.py lines 336-342): skip
iff `last_checked_at` is set and `now - last_checked_at` is strictly below
the interval (elapsed computed over the integers, as Python does). -/
def isDue (now : Nat) (m : Monitor) : Bool :=
  match m.last_checked_at with
  | none => true
  | some last =>
      !((now : Int) - (last : Int) < (m.check_interval_seconds : Int))

/-- One element of the list `run_all_checks` returns. -/
structure CycleResult where
  monitor_name : String
  url : String
  result : CheckResult
deriving Repr, DecidableEq

/-- The body of the `run_all_checks` loop for a due monitor
(monitor_engine.py lines 344-360): run the plain HTTP check, insert the
check row, run the state machine, and record the outcome. -/
def processMonitor (env : Env) (now : Nat) (db : DB) (m : Monitor) :
    DB × CycleResult :=
  let r := checkUrl m.url m.expected_status m.timeout_seconds
    (env.probe m.id) now
  let db1 := saveCheckResult db m.id r
  let db2 := updateMonitorStatus env db1 m.id r.is_up now
  (db2, { monitor_name := m.name, url := m.url, result := r })

/-- The `run_all_checks` loop over the snapshot of active monitors.  The
source wraps no handler around the loop body, so a store call that raises
while processing one monitor propagates and ends the cycle; `persistFails`
says for which monitor ids that happens. -/
def runChecksFrom (env : Env) (now : Nat) :
    List Monitor → DB → Except String (DB × List CycleResult)
  | [], db => .ok (db, [])
  | m :: rest, db =>
    if isDue now m then
      if env.persistFails m.id then
        .error s!"store failure while processing monitor {m.id}"
      else
        match runChecksFrom env now rest (processMonitor env now db m).1 with
        | .ok (dbf, rs) => .ok (dbf, (processMonitor env now db m).2 :: rs)
        | .error e => .error e
    else runChecksFrom env now rest db

/-- `MonitorEngine.run_all_checks` (monitor_engine.py lines 325-362): load
the monitors with `is_active = true` once, then loop. -/
def runAllChecks (env : Env) (db : DB) (now : Nat) :
    Except String (DB × List CycleResult) :=
  runChecksFrom env now (db.monitors.filter (fun m => m.is_active)) db

/-- Modelled from the spec: the scheduler contract of §4.5, which processes
every monitor of the given (already due-filtered) list, with no due test of
its own.  Used to compare `runAllChecks` with the spec's due-check law. -/
def runDueMonitors (env : Env) (now : Nat) :
    List Monitor → DB → Except String (DB × List CycleResult)
  | [], db => .ok (db, [])
  | m :: rest, db =>
    if env.persistFails m.id then
      .error s!"store failure while processing monitor {m.id}"
    else
      match runDueMonitors env now rest (processMonitor env now db m).1 with
      | .ok (dbf, rs) => .ok (dbf, (processMonitor env now db m).2 :: rs)
      | .error e => .error e

/-! ## Concrete fixtures for witnesses and counterexamples -/

/-- An environment with no SMTP credentials configured, a reachable network
and a store that never fails. `emailSend` raises, so any `.ok` outcome of
the email channel proves the SMTP session was never entered. -/
def envTrivial : Env :=
  { smtp_email := "", smtp_password := "",
    emailSend := fun _ => .error "SMTP session entered",
    webhook := fun _ => .response 200,
    probe := fun _ => .response 200 10,
    schpFetch := fun u =>
      { url := u, success := false, data := none,
        error := some "Connection failed: refused",
        response_time_ms := none, fetched_at := 100 },
    persistFails := fun _ => false }

/-- A monitor that has never been observed. -/
def monUnknown : Monitor :=
  { id := 1, name := "api", url := "https://api.example", expected_status := 200,
    timeout_seconds := 30, check_interval_seconds := 300, is_active := true,
    current_status := .unknown, last_checked_at := none,
    last_status_change_at := none, updated_at := none, kind := .urlCheck }

/-- Store holding only `monUnknown`. -/
def dbUnknown : DB :=
  { monitors := [monUnknown], checks := [], incidents := [],
    alert_configs := [], alert_history := [], next_incident_id := 1 }

/-- A monitor currently `down`. -/
def monDown : Monitor :=
  { id := 2, name := "web", url := "https://web.example", expected_status := 200,
    timeout_seconds := 30, check_interval_seconds := 300, is_active := true,
    current_status := .down, last_checked_at := some 40,
    last_status_change_at := some 40, updated_at := some 40, kind := .urlCheck }

/-- Store holding `monDown` with one open incident started at 40. -/
def dbDown : DB :=
  { monitors := [monDown], checks := [],
    incidents := [{ id := 7, monitor_id := 2, started_at := 40,
                    resolved_at := none, duration_seconds := none,
                    is_resolved := false }],
    alert_configs := [], alert_history := [], next_incident_id := 8 }

/-! ## Lemmas about the state machine -/

/-- Finding a row by id in a table patched at that id finds the patched row. -/
lemma find?_map_patch (l : List Monitor) (monitor_id : Nat)
    (g : Monitor → Monitor) (hg : ∀ x, (g x).id = x.id) :
    (l.map (fun x => if x.id == monitor_id then g x else x)).find?
        (fun x => x.id == monitor_id)
      = (l.find? (fun x => x.id == monitor_id)).map g := by
  induction l with
  | nil => rfl
  | cons a l ih =>
    by_cases h : a.id = monitor_id
    · have hbeq : (a.id == monitor_id) = true := by simp [h]
      have hgbeq : ((g a).id == monitor_id) = true := by simp [hg a, h]
      simp only [List.map_cons, List.find?_cons, hbeq, hgbeq, if_true]
      rfl
    · have hbeq : (a.id == monitor_id) = false := by simp [h]
      simp only [List.map_cons, List.find?_cons, hbeq, Bool.false_eq_true,
        if_false, ih]

/-- The `monitors` table after `update_monitor_status`: every row with the
given id is patched with `update_data`, every other row is untouched. -/
lemma updateMonitorStatus_monitors (env : Env) (db : DB) (monitor_id : Nat)
    (is_up : Bool) (now : Nat) (m : Monitor)
    (hfind : db.monitors.find? (fun x => x.id == monitor_id) = some m) :
    (updateMonitorStatus env db monitor_id is_up now).monitors
      = db.monitors.map (fun x =>
          if x.id == monitor_id then
            monitorPatch
              ((m.current_status != (if is_up then MStatus.up else MStatus.down))
                && (m.current_status != MStatus.unknown))
              (if is_up then MStatus.up else MStatus.down) now x
          else x) := by
  unfold updateMonitorStatus
  rw [hfind]
  cases is_up <;> cases hcs : m.current_status <;>
    simp [sendAlerts, hcs]

/-! ## Claim C3 -/

/-- Claim C3: when the monitor's current status is `unknown`, the status is
set to the new value and no incident is opened or closed (and no alert is
dispatched), even when the new status is `down`. -/
theorem update_from_unknown_no_incident (env : Env) (db : DB)
    (monitor_id : Nat) (is_up : Bool) (now : Nat) (m : Monitor)
    (hfind : db.monitors.find? (fun x => x.id == monitor_id) = some m)
    (hstatus : m.current_status = .unknown) :
    (updateMonitorStatus env db monitor_id is_up now).incidents
        = db.incidents ∧
    (updateMonitorStatus env db monitor_id is_up now).alert_history
        = db.alert_history ∧
    (updateMonitorStatus env db monitor_id is_up now).monitors.find?
        (fun x => x.id == monitor_id)
      = some { m with current_status := if is_up then .up else .down,
                      last_checked_at := some now,
                      updated_at := some now } := by
  refine ⟨?_, ?_, ?_⟩
  · unfold updateMonitorStatus
    rw [hfind]
    simp [hstatus]
  · unfold updateMonitorStatus
    rw [hfind]
    simp [hstatus]
  · rw [updateMonitorStatus_monitors env db monitor_id is_up now m hfind,
        find?_map_patch db.monitors monitor_id
          (monitorPatch
            ((m.current_status != (if is_up then MStatus.up else MStatus.down))
              && (m.current_status != MStatus.unknown))
            (if is_up then MStatus.up else MStatus.down) now)
          (fun x => rfl),
        hfind]
    simp [monitorPatch, hstatus]

/-- Concrete witness for C3: a first observation of `down` on an `unknown`
monitor opens no incident and writes no alert history. -/
theorem update_from_unknown_no_incident_witness :
    (updateMonitorStatus envTrivial dbUnknown 1 false 100).incidents
        = dbUnknown.incidents ∧
    (updateMonitorStatus envTrivial dbUnknown 1 false 100).alert_history
        = dbUnknown.alert_history ∧
    (updateMonitorStatus envTrivial dbUnknown 1 false 100).monitors.find?
        (fun x => x.id == 1)
      = some { monUnknown with current_status := MStatus.down,
                               last_checked_at := some 100,
                               updated_at := some 100 } :=
  update_from_unknown_no_incident envTrivial dbUnknown 1 false 100
    monUnknown rfl rfl

/-! ## Claim C4 -/

/-- The `incidents` table after a `down → up` transition: every open
incident of the monitor is resolved, everything else is untouched. -/
lemma updateMonitorStatus_down_up_incidents (env : Env) (db : DB)
    (monitor_id : Nat) (now : Nat) (m : Monitor)
    (hfind : db.monitors.find? (fun x => x.id == monitor_id) = some m)
    (hstatus : m.current_status = .down) :
    (updateMonitorStatus env db monitor_id true now).incidents
      = db.incidents.map (fun inc =>
          if inc.monitor_id == monitor_id && !inc.is_resolved
          then resolveIncident now inc else inc) := by
  unfold updateMonitorStatus
  rw [hfind]
  simp [hstatus, sendAlerts]

/-- Claim C4: a `down → up` transition resolves every currently open
incident of the monitor, setting `is_resolved = true`, `resolved_at = now`
and `duration_seconds = resolved_at - started_at` exactly; afterwards the
monitor has no open incident. -/
theorem down_up_resolves_all_open (env : Env) (db : DB) (monitor_id : Nat)
    (now : Nat) (m : Monitor)
    (hfind : db.monitors.find? (fun x => x.id == monitor_id) = some m)
    (hstatus : m.current_status = .down) :
    (∀ inc ∈ db.incidents, inc.monitor_id = monitor_id →
      inc.is_resolved = false →
      ({ inc with resolved_at := some now,
                  duration_seconds := some (now - inc.started_at),
                  is_resolved := true } : Incident)
        ∈ (updateMonitorStatus env db monitor_id true now).incidents) ∧
    (∀ inc ∈ (updateMonitorStatus env db monitor_id true now).incidents,
      inc.monitor_id = monitor_id → inc.is_resolved = true) := by
  rw [updateMonitorStatus_down_up_incidents env db monitor_id now m hfind hstatus]
  constructor
  · intro inc hmem hmid hopen
    have hcond : (inc.monitor_id == monitor_id && !inc.is_resolved) = true := by
      simp [hmid, hopen]
    refine List.mem_map.mpr ⟨inc, hmem, ?_⟩
    simp [hcond, resolveIncident]
  · intro inc hmem hmid
    obtain ⟨pre, hpre, heq⟩ := List.mem_map.mp hmem
    by_cases hcond : (pre.monitor_id == monitor_id && !pre.is_resolved) = true
    · simp only [hcond, if_true] at heq
      rw [← heq]
      simp [resolveIncident]
    · have hf : (pre.monitor_id == monitor_id && !pre.is_resolved) = false :=
        Bool.eq_false_iff.mpr hcond
      simp only [hf, Bool.false_eq_true, if_false] at heq
      rw [← heq] at hmid ⊢
      cases hpr : pre.is_resolved
      · exfalso
        rw [hpr] at hf
        simp [hmid] at hf
      · rfl

/-- Concrete witness for C4: the single open incident (started at 40) is
resolved at 100 with duration exactly 60 seconds. -/
theorem down_up_resolves_all_open_witness :
    ({ id := 7, monitor_id := 2, started_at := 40, resolved_at := some 100,
       duration_seconds := some 60, is_resolved := true } : Incident)
      ∈ (updateMonitorStatus envTrivial dbDown 2 true 100).incidents :=
  (down_up_resolves_all_open envTrivial dbDown 2 100 monDown rfl rfl).1
    { id := 7, monitor_id := 2, started_at := 40, resolved_at := none,
      duration_seconds := none, is_resolved := false }
    (by simp [dbDown]) rfl rfl

/-! ## Claim C10 -/

/-- A monitor currently `paused` (set by the UI toggle together with
`is_active = false`); `update_monitor_status` is reachable for it through
the manual `trigger_check` entry point. -/
def monPaused : Monitor :=
  { id := 3, name := "batch", url := "https://batch.example",
    expected_status := 200, timeout_seconds := 30,
    check_interval_seconds := 300, is_active := false,
    current_status := .paused, last_checked_at := some 40,
    last_status_change_at := some 5, updated_at := some 40,
    kind := .urlCheck }

/-- Store holding only `monPaused`. -/
def dbPaused : DB :=
  { monitors := [monPaused], checks := [], incidents := [],
    alert_configs := [], alert_history := [], next_incident_id := 1 }

/-- Counterexample to C10 as stated: on a `paused → up` observation — not a
transition between the known states `up` and `down` — the code still writes
`last_status_change_at` (here: `some 5` becomes `some 100`). -/
theorem last_status_change_written_from_paused :
    monPaused.current_status = MStatus.paused ∧
    monPaused.last_status_change_at = some 5 ∧
    (updateMonitorStatus envTrivial dbPaused 3 true 100).monitors.map
        (fun x => x.last_status_change_at) = [some 100] := by
  refine ⟨rfl, rfl, ?_⟩
  rfl

/-- Claim C10 as amended: `last_status_change_at` is left unchanged when the
old status is `unknown` or equals the new status, and is set to `now`
exactly when the old status differs from the new one and is not `unknown` —
which includes observations leaving `paused`, not only transitions between
`up` and `down`. -/
theorem last_status_change_write_rule (env : Env) (db : DB)
    (monitor_id : Nat) (is_up : Bool) (now : Nat) (m : Monitor)
    (hfind : db.monitors.find? (fun x => x.id == monitor_id) = some m) :
    ((updateMonitorStatus env db monitor_id is_up now).monitors.find?
        (fun x => x.id == monitor_id)).map (fun x => x.last_status_change_at)
      = some (if (m.current_status != (if is_up then MStatus.up else MStatus.down))
                 && (m.current_status != MStatus.unknown)
              then some now
              else m.last_status_change_at) := by
  rw [updateMonitorStatus_monitors env db monitor_id is_up now m hfind,
      find?_map_patch db.monitors monitor_id
        (monitorPatch
          ((m.current_status != (if is_up then MStatus.up else MStatus.down))
            && (m.current_status != MStatus.unknown))
          (if is_up then MStatus.up else MStatus.down) now)
        (fun x => rfl),
      hfind]
  simp [monitorPatch]

/-- Concrete witness for the amended C10: a repeat `down → down` observation
leaves `last_status_change_at` untouched. -/
theorem last_status_change_write_rule_witness :
    ((updateMonitorStatus envTrivial dbDown 2 false 100).monitors.find?
        (fun x => x.id == 2)).map (fun x => x.last_status_change_at)
      = some (some 40) := by
  have h := last_status_change_write_rule envTrivial dbDown 2 false 100
    monDown rfl
  simpa [monDown] using h

/-! ## Claim C5 -/

/-- The scheduler loop over any monitor list equals the spec's contract run
over the due-filtered list: skipped monitors contribute no state change and
no output. -/
lemma runChecksFrom_filter_due (env : Env) (now : Nat) (l : List Monitor) :
    ∀ db : DB, runChecksFrom env now l db
      = runDueMonitors env now (l.filter (isDue now)) db := by
  induction l with
  | nil => intro db; rfl
  | cons m rest ih =>
    intro db
    cases h : isDue now m
    · simp [runChecksFrom, List.filter_cons, h, ih]
    · simp [runChecksFrom, runDueMonitors, List.filter_cons, h, ih]

/-- Claim C5: a cycle checks an active monitor iff `last_checked_at` is null
or `now - last_checked_at >= check_interval_seconds`; monitors that are not
due are skipped with no side effects and absent from the output (the cycle
equals the spec's scheduler run over exactly the due-filtered active
monitors). -/
theorem run_all_checks_due_law (env : Env) (db : DB) (now : Nat) :
    runAllChecks env db now
      = runDueMonitors env now
          ((db.monitors.filter (fun m => m.is_active)).filter (isDue now)) db ∧
    (∀ m : Monitor, m.last_checked_at = none → isDue now m = true) ∧
    (∀ (m : Monitor) (t : Nat), m.last_checked_at = some t →
      (isDue now m = true ↔
        (m.check_interval_seconds : Int) ≤ (now : Int) - (t : Int))) := by
  refine ⟨runChecksFrom_filter_due env now _ db, ?_, ?_⟩
  · intro m h
    simp [isDue, h]
  · intro m t h
    simp [isDue, h, Int.not_lt]

/-- Concrete witness for C5: a never-checked monitor is due; with interval
300 and `last_checked_at = 40`, time 339 is skipped and time 340 is due. -/
theorem run_all_checks_due_law_witness :
    runAllChecks envTrivial dbUnknown 100
      = runDueMonitors envTrivial 100
          ((dbUnknown.monitors.filter (fun m => m.is_active)).filter
            (isDue 100)) dbUnknown ∧
    isDue 100 monUnknown = true ∧
    isDue 340 monDown = true ∧
    isDue 339 monDown = false :=
  ⟨(run_all_checks_due_law envTrivial dbUnknown 100).1,
   (run_all_checks_due_law envTrivial dbUnknown 100).2.1 monUnknown rfl,
   ((run_all_checks_due_law envTrivial dbDown 340).2.2 monDown 40 rfl).mpr
     (by decide),
   Bool.eq_false_iff.mpr (fun h =>
     absurd (((run_all_checks_due_law envTrivial dbDown 339).2.2 monDown 40
       rfl).mp h) (by decide))⟩

/-! ## Claim C9 -/

/-- If some due monitor of the snapshot has a failing store, the loop ends
in an error. -/
lemma runChecksFrom_persist_fail (env : Env) (now : Nat) (l : List Monitor) :
    ∀ (db : DB) (m : Monitor), m ∈ l → isDue now m = true →
      env.persistFails m.id = true →
      ∃ e, runChecksFrom env now l db = .error e := by
  induction l with
  | nil =>
    intro db m hm _ _
    exact absurd hm (List.not_mem_nil m)
  | cons a rest ih =>
    intro db m hm hdue hfail
    rcases List.mem_cons.mp hm with rfl | hm'
    · exact ⟨s!"store failure while processing monitor {m.id}",
        by simp [runChecksFrom, hdue, hfail]⟩
    · cases h : isDue now a
      · obtain ⟨e, he⟩ := ih db m hm' hdue hfail
        exact ⟨e, by simp [runChecksFrom, h, he]⟩
      · by_cases hp : env.persistFails a.id = true
        · exact ⟨s!"store failure while processing monitor {a.id}",
            by simp [runChecksFrom, h, hp]⟩
        · obtain ⟨e, he⟩ :=
            ih (processMonitor env now db a).1 m hm' hdue hfail
          refine ⟨e, ?_⟩
          simp [runChecksFrom, h, hp, he]

/-- Claim C9 as amended: a persistence failure while processing one due
monitor propagates out of `run_all_checks` and terminates the whole cycle
with an error — it is not scoped to that monitor. -/
theorem persist_failure_terminates_cycle (env : Env) (db : DB) (now : Nat)
    (m : Monitor) (hm : m ∈ db.monitors) (hact : m.is_active = true)
    (hdue : isDue now m = true) (hfail : env.persistFails m.id = true) :
    ∃ e, runAllChecks env db now = Except.error e :=
  runChecksFrom_persist_fail env now _ db m
    (List.mem_filter.mpr ⟨hm, hact⟩) hdue hfail

/-- An environment whose store raises while processing monitor 4. -/
def envFail : Env := { envTrivial with persistFails := fun i => i == 4 }

/-- Two active, due monitors; the store fails on the first. -/
def dbTwo : DB :=
  { monitors :=
      [{ id := 4, name := "first", url := "https://one.example",
         expected_status := 200, timeout_seconds := 30,
         check_interval_seconds := 300, is_active := true,
         current_status := .up, last_checked_at := none,
         last_status_change_at := none, updated_at := none,
         kind := .urlCheck },
       { id := 5, name := "second", url := "https://two.example",
         expected_status := 200, timeout_seconds := 30,
         check_interval_seconds := 300, is_active := true,
         current_status := .up, last_checked_at := none,
         last_status_change_at := none, updated_at := none,
         kind := .urlCheck }],
    checks := [], incidents := [], alert_configs := [],
    alert_history := [], next_incident_id := 1 }

/-- Counterexample to C9 as stated: with two due monitors and a store
failure on the first, the cycle terminates with an error instead of
continuing with the second monitor (no outcome list is produced). -/
theorem persist_failure_counterexample :
    runAllChecks envFail dbTwo 100
      = Except.error "store failure while processing monitor 4" := by
  rfl

/-- Concrete witness for the amended C9. -/
theorem persist_failure_terminates_cycle_witness :
    ∃ e, runAllChecks envFail dbTwo 100 = Except.error e :=
  persist_failure_terminates_cycle envFail dbTwo 100
    { id := 4, name := "first", url := "https://one.example",
      expected_status := 200, timeout_seconds := 30,
      check_interval_seconds := 300, is_active := true,
      current_status := .up, last_checked_at := none,
      last_status_change_at := none, updated_at := none,
      kind := .urlCheck }
    (by simp [dbTwo]) rfl rfl rfl

/-! ## Claim C8 -/

/-- Every outcome of a completed loop comes from `checkUrl` applied to a due
monitor of the snapshot; the loop never branches on a check kind. -/
lemma runChecksFrom_outcomes_http (env : Env) (now : Nat) (l : List Monitor) :
    ∀ (db dbf : DB) (rs : List CycleResult),
      runChecksFrom env now l db = .ok (dbf, rs) →
      ∀ r ∈ rs, ∃ m ∈ l, isDue now m = true ∧
        r = { monitor_name := m.name, url := m.url,
              result := checkUrl m.url m.expected_status m.timeout_seconds
                (env.probe m.id) now } := by
  induction l with
  | nil =>
    intro db dbf rs h r hr
    simp only [runChecksFrom, Except.ok.injEq, Prod.mk.injEq] at h
    rw [← h.2] at hr
    exact absurd hr (List.not_mem_nil r)
  | cons a rest ih =>
    intro db dbf rs h r hr
    cases hdue : isDue now a
    · rw [runChecksFrom, if_neg (by simp [hdue])] at h
      obtain ⟨m, hm, hd, he⟩ := ih db dbf rs h r hr
      exact ⟨m, List.mem_cons_of_mem a hm, hd, he⟩
    · rw [runChecksFrom, if_pos hdue] at h
      by_cases hp : env.persistFails a.id = true
      · rw [if_pos hp] at h
        exact absurd h (by simp)
      · rw [if_neg hp] at h
        cases hrec : runChecksFrom env now rest (processMonitor env now db a).1 with
        | error e => rw [hrec] at h; exact absurd h (by simp)
        | ok pr =>
          rw [hrec] at h
          simp only [Except.ok.injEq, Prod.mk.injEq] at h
          rw [← h.2] at hr
          rcases List.mem_cons.mp hr with rfl | hr'
          · exact ⟨a, List.mem_cons_self a rest, hdue, rfl⟩
          · obtain ⟨m, hm, hd, he⟩ := ih _ pr.1 pr.2 (by rw [hrec]) r hr'
            exact ⟨m, List.mem_cons_of_mem a hm, hd, he⟩

/-- Claim C8 as amended: `run_all_checks` runs the plain HTTP Checker for
every due monitor, regardless of any declared check kind; every outcome of a
completed cycle is a `checkUrl` result (the SCHP client is reachable only
through the separate capability-check entry point). -/
theorem run_all_checks_always_http (env : Env) (db : DB) (now : Nat)
    (dbf : DB) (rs : List CycleResult)
    (h : runAllChecks env db now = .ok (dbf, rs)) :
    ∀ r ∈ rs, ∃ m, m ∈ db.monitors ∧ m.is_active = true ∧
      isDue now m = true ∧
      r.result = checkUrl m.url m.expected_status m.timeout_seconds
        (env.probe m.id) now := by
  intro r hr
  obtain ⟨m, hm, hd, he⟩ := runChecksFrom_outcomes_http env now _ db dbf rs h r hr
  obtain ⟨hmem, hact⟩ := List.mem_filter.mp hm
  exact ⟨m, hmem, hact, hd, by rw [he]⟩

/-- A due monitor whose declared check kind is `capability`. -/
def monCap : Monitor :=
  { id := 6, name := "capsvc", url := "https://cap.example",
    expected_status := 200, timeout_seconds := 30,
    check_interval_seconds := 300, is_active := true,
    current_status := .unknown, last_checked_at := none,
    last_status_change_at := none, updated_at := none,
    kind := .capability }

/-- Store holding only `monCap`. -/
def dbCap : DB :=
  { monitors := [monCap], checks := [], incidents := [],
    alert_configs := [], alert_history := [], next_incident_id := 1 }

/-- An environment where the plain HTTP probe of the capability monitor
returns 200 while its SCHP endpoint reports every capability down. -/
def envCap : Env :=
  { envTrivial with
    probe := fun _ => .response 200 10,
    schpFetch := fun u =>
      { url := u, success := true,
        data := some { status := none,
                       capabilities := [("db", ⟨false, some "outage"⟩)] },
        error := none, response_time_ms := some 5, fetched_at := 100 } }

/-- Counterexample to C8 as stated: for the due capability monitor the
cycle's outcome is the HTTP checker's (`is_up = true` from the 200 probe),
while the SCHP client on the same environment reports not-up — so the
scheduler did not run the SCHP client for the capability monitor. -/
theorem run_all_checks_capability_counterexample :
    monCap.kind = CheckKind.capability ∧
    ((runAllChecks envCap dbCap 100).toOption.map
        (fun p => p.2.map (fun r => r.result.is_up))) = some [true] ∧
    (checkCapabilities envCap monCap.url).is_up = false ∧
    (checkCapabilities envCap monCap.url).status = "down" := by
  refine ⟨rfl, by rfl, by rfl, by rfl⟩

/-- Concrete witness for the amended C8: in the cycle over `dbCap` the sole
outcome is a `checkUrl` result. -/
theorem run_all_checks_always_http_witness :
    ∃ m, m ∈ dbCap.monitors ∧ m.is_active = true ∧ isDue 100 m = true ∧
      ({ monitor_name := "capsvc", url := "https://cap.example",
         result := checkUrl "https://cap.example" 200 30
           (envCap.probe 6) 100 } : CycleResult).result
        = checkUrl m.url m.expected_status m.timeout_seconds
            (envCap.probe m.id) 100 :=
  run_all_checks_always_http envCap dbCap 100
    (updateMonitorStatus envCap
      (saveCheckResult dbCap 6 (checkUrl "https://cap.example" 200 30
        (envCap.probe 6) 100)) 6 true 100)
    [{ monitor_name := "capsvc", url := "https://cap.example",
       result := checkUrl "https://cap.example" 200 30 (envCap.probe 6) 100 }]
    (by rfl) _ (List.mem_singleton.mpr rfl)

/-! ## Claim C6 -/

/-- A monitor currently `up` with one active email alert config. -/
def monEmail : Monitor :=
  { id := 8, name := "mailsvc", url := "https://mail.example",
    expected_status := 200, timeout_seconds := 30,
    check_interval_seconds := 300, is_active := true,
    current_status := .up, last_checked_at := some 40,
    last_status_change_at := some 40, updated_at := some 40,
    kind := .urlCheck }

/-- The active email alert config of `monEmail`. -/
def cfgEmail : AlertConfig :=
  { id := 20, monitor_id := 8, alert_type := "email",
    destination := "ops@example.com", is_active := true }

/-- Store holding `monEmail` and `cfgEmail`. -/
def dbEmail : DB :=
  { monitors := [monEmail], checks := [], incidents := [],
    alert_configs := [cfgEmail], alert_history := [],
    next_incident_id := 1 }

/-- Claim C6, evaluated at the failing input: with no SMTP credentials
configured (`envTrivial` has empty credentials and an SMTP session that
would raise if entered), `_send_email_alert` skips the send before any
attempt (it returns ok without touching SMTP), yet the dispatcher then
writes an `alert_history` row with `was_successful = true` for the send
that never happened — contradicting the spec's "must not log a false
success". -/
theorem email_no_credentials_false_success :
    sendEmailAlert envTrivial cfgEmail = Except.ok () ∧
    (updateMonitorStatus envTrivial dbEmail 8 false 100).alert_history.map
        (fun x => (x.alert_config_id, x.alert_type, x.was_successful))
      = [(20, "email", true)] := by
  exact ⟨rfl, by rfl⟩

/-! ## Claim C7 -/

/-- A monitor currently `up` with one active webhook alert config. -/
def monHook : Monitor :=
  { id := 9, name := "hooked", url := "https://hook.example",
    expected_status := 200, timeout_seconds := 30,
    check_interval_seconds := 300, is_active := true,
    current_status := .up, last_checked_at := some 40,
    last_status_change_at := some 40, updated_at := some 40,
    kind := .urlCheck }

/-- The active webhook alert config of `monHook`. -/
def cfgHook : AlertConfig :=
  { id := 30, monitor_id := 9, alert_type := "webhook",
    destination := "https://dest.example/hook", is_active := true }

/-- Store holding `monHook` and `cfgHook`. -/
def dbHook : DB :=
  { monitors := [monHook], checks := [], incidents := [],
    alert_configs := [cfgHook], alert_history := [],
    next_incident_id := 1 }

/-- An environment whose webhook destination answers 500 to every POST. -/
def envHook500 : Env := { envTrivial with webhook := fun _ => .response 500 }

/-- An environment whose webhook destination is unreachable. -/
def envHookErr : Env :=
  { envTrivial with webhook := fun _ => .transportError "connection refused" }

/-- Counterexample to C7 as stated: the destination answers a non-2xx 500,
yet the `alert_history` row written for the attempt has
`was_successful = true` (the code never inspects the response). -/
theorem webhook_non_2xx_logged_as_success :
    envHook500.webhook cfgHook = WebhookOutcome.response 500 ∧
    (updateMonitorStatus envHook500 dbHook 9 false 100).alert_history.map
        (fun x => x.was_successful) = [true] := by
  exact ⟨rfl, by rfl⟩

/-- Claim C7 as amended: a webhook delivery attempt is recorded as failed
(`was_successful = false`) iff the POST raises a transport error; a
completed HTTP response — any status code, non-2xx included — is recorded
as a successful delivery. -/
theorem webhook_success_iff_transport_ok (env : Env) (a : AlertConfig)
    (monitor_id : Nat) (mdata : Monitor) (status : String)
    (htype : a.alert_type = "webhook") :
    (alertAttempt env a monitor_id mdata status).was_successful
      = (match env.webhook a with
         | .response _ => true
         | .transportError _ => false) := by
  cases h : env.webhook a <;>
    simp [alertAttempt, sendChannel, sendWebhookAlert, htype, h]

/-- Concrete witness for the amended C7: a transport error is recorded as a
failed delivery. -/
theorem webhook_success_iff_transport_ok_witness :
    (alertAttempt envHookErr cfgHook 9 monHook "down").was_successful
      = false := by
  have h := webhook_success_iff_transport_ok envHookErr cfgHook 9 monHook
    "down" rfl
  simpa [envHookErr, envTrivial] using h

end StatusPulse
